import Mathlib

/-!
Verification of the currying and composition layer of the sidekick
repository against its specification.

The definitions below are shallow embeddings of the Python functions in
src/examples/experiments/function-calling.ipynb (the currying experiments:
curry, curry_kw, cy_fn, curry2_with_args, curry2_with_exception, and the
cy extension class), plus spec-modelled definitions for sk.compose and the
fn predicate-or operator, whose implementations are not under src/ (only
their documentation in src/docs/extended_functions.rst and the tutorial
pages is).

Python values are modelled by an arbitrary type alpha.  Positional
argument tuples become lists; keyword-argument dicts become association
lists built only through dict-update, so keys stay unique.  A Python
function that can raise is modelled with an explicit error type.
-/

namespace Sidekick

/-- Errors a modelled Python call can raise.  Only TypeError matters for
the claims; a second constructor keeps "some other exception" expressible
so that except-TypeError clauses are not vacuous. -/
inductive PyErr where
  | typeError
  | valueError
  deriving DecidableEq, Repr

/-! ### The generic curry function

Python source (function-calling.ipynb):

  def curry(n, func):
      def incomplete_factory(arity, used_args):
          return lambda *args: (
              func(*(used_args + args))
              if len(used_args) + len(args) >= arity
              else incomplete_factory(arity, used_args + args)
          )
      return incomplete_factory(n, ())

The closure produced by incomplete_factory is determined by the captured
pair (arity, used_args) together with func; we represent that closure
state as a structure and pass func explicitly, which keeps states
comparable by decidable equality. -/

/-- Closure state of the lambda built by incomplete_factory in curry:
the captured arity and the tuple of already bound positional
arguments. -/
structure Incomplete (α : Type) where
  arity : Nat
  used_args : List α
  deriving DecidableEq, Repr

/-- Result of one call to a curry closure: either the wrapped function
fires, or a new deferred closure (a further incomplete application) is
returned. -/
inductive CurryResult (α : Type) where
  | value : α → CurryResult α
  | deferred : Incomplete α → CurryResult α
  deriving DecidableEq, Repr

/-- Embedding of curry(n, func): the initial closure state, with no bound
arguments (incomplete_factory(n, ())). -/
def curry (α : Type) (n : Nat) : Incomplete α :=
  ⟨n, []⟩

/-- Embedding of one call to the lambda returned by incomplete_factory:
if enough positional arguments have accumulated, call func on the bound
arguments followed by the new ones; otherwise capture the concatenation
in a fresh closure state. -/
def curryCall (func : List α → α) (s : Incomplete α) (args : List α) :
    CurryResult α :=
  if s.used_args.length + args.length ≥ s.arity then
    .value (func (s.used_args ++ args))
  else
    .deferred ⟨s.arity, s.used_args ++ args⟩

/-- Example binary-or-more function used in concrete witnesses: folds the
argument list into a decimal encoding, so the order of arguments is
observable. -/
def decEnc (l : List Nat) : Nat :=
  l.foldl (fun a x => 10 * a + x) 0

/-- CLAIM C1: for curry(n, f) with n at least 2 and any split of n
positional values into non-empty groups args1, args2 with sizes (a, n-a),
0 < a < n, the first call defers with args1 bound and the second call
invokes f on args1 ++ args2. -/
theorem curry_split (α : Type) (func : List α → α) (n : Nat)
    (args1 args2 : List α) (hn : 2 ≤ n) (hpos : 0 < args1.length)
    (hlt : args1.length < n) (hlen : args2.length = n - args1.length) :
    curryCall func (curry α n) args1 = .deferred ⟨n, args1⟩ ∧
    curryCall func ⟨n, args1⟩ args2 = .value (func (args1 ++ args2)) := by
  constructor
  · unfold curry curryCall
    rw [if_neg]
    · simp
    · simp
      omega
  · unfold curryCall
    rw [if_pos]
    show n ≤ args1.length + args2.length
    omega

/-- Witness for C1 at a concrete input: n = 2, args1 = [1], args2 = [2];
the deferred call then the completing call produce decEnc [1, 2] = 12. -/
theorem curry_split_witness :
    curryCall decEnc (curry Nat 2) [1] = .deferred ⟨2, [1]⟩ ∧
    curryCall decEnc ⟨2, [1]⟩ [2] = .value 12 := by
  have h := curry_split Nat decEnc 2 [1] [2] (by decide) (by decide)
    (by decide) (by decide)
  exact ⟨h.1, by rw [h.2]; decide⟩

/-- CLAIM C3: a call to curry(n, f) supplying K ≥ n positional arguments
(K strictly greater than n included) immediately invokes f on all K
arguments in order; no deferred application is produced. -/
theorem curry_saturated (α : Type) (func : List α → α) (n : Nat)
    (args : List α) (h : args.length ≥ n) :
    curryCall func (curry α n) args = .value (func args) := by
  unfold curry curryCall
  rw [if_pos]
  · simp
  · simp
    omega

/-- Witness for C3 at a concrete input with K = 3 > n = 2. -/
theorem curry_saturated_witness :
    curryCall decEnc (curry Nat 2) [1, 2, 3] = .value 123 := by
  have h := curry_saturated Nat decEnc 2 [1, 2, 3] (by decide)
  rw [h]
  decide

/-! ### Keyword dictionaries

Python dicts of keyword arguments, modelled as association lists whose
entries are only ever created through dict update, mirroring the dict
display \x7b**d1, **d2\x7d (PEP 448): keys of d2 override keys of d1 in
place, fresh keys are appended.  Lookup returns the first matching
entry, exactly as a dict with unique keys does. -/

/-- Lookup in a keyword dict: the value stored under key k, if any. -/
def getKw : List (String × α) → String → Option α
  | [], _ => none
  | p :: d, k => if p.1 = k then some p.2 else getKw d k

/-- Store v under key k, replacing an existing binding in place or
appending a fresh one, as Python dict assignment does. -/
def updateKey : List (String × α) → String → α → List (String × α)
  | [], k, v => [(k, v)]
  | p :: d, k, v => if p.1 = k then (k, v) :: d else p :: updateKey d k v

/-- Embedding of the dict display \x7b**d1, **d2\x7d: d1 updated by every
entry of d2 in order, so a later binding overrides an earlier one for the
same name. -/
def dictUnion (d1 d2 : List (String × α)) : List (String × α) :=
  d2.foldl (fun d p => updateKey d p.1 p.2) d1

/-- Python call-site check for func(**d1, **d2): if any key occurs in
both unpacked mappings the call raises TypeError (multiple values for a
keyword argument) before func runs. -/
def dupKeys (d1 d2 : List (String × α)) : Bool :=
  d2.any (fun p => (getKw d1 p.1).isSome)

theorem getKw_updateKey (d : List (String × α)) (k k2 : String) (v : α) :
    getKw (updateKey d k v) k2 = if k = k2 then some v else getKw d k2 := by
  induction d with
  | nil => simp [updateKey, getKw]
  | cons p d ih =>
    by_cases hp : p.1 = k
    · by_cases hk : k = k2
      · simp [updateKey, getKw, hp, hk]
      · have hpk2 : ¬ p.1 = k2 := fun h => hk (hp.symm.trans h)
        simp [updateKey, getKw, hp, hk, hpk2]
    · by_cases hk : k = k2
      · have hpk2 : ¬ p.1 = k2 := fun h => hp (h.trans hk.symm)
        subst hk
        simp [updateKey, getKw, hp, hpk2, ih]
      · simp [updateKey, getKw, hp, hk, ih]

theorem getKw_eq_none_of_not_mem (d : List (String × α)) (k : String)
    (h : k ∉ d.map Prod.fst) : getKw d k = none := by
  induction d with
  | nil => rfl
  | cons p d ih =>
    simp only [List.map_cons, List.mem_cons] at h
    push_neg at h
    simp only [getKw]
    rw [if_neg (fun hp => h.1 hp.symm)]
    exact ih h.2

/-- Lookup in the union dict: a key bound by the later dict takes its
later value, any other key keeps its earlier value.  Requires the later
dict to have unique keys, which every Python dict has. -/
theorem getKw_dictUnion (d1 d2 : List (String × α)) (k : String)
    (hnd : (d2.map Prod.fst).Nodup) :
    getKw (dictUnion d1 d2) k =
      match getKw d2 k with
      | some v => some v
      | none => getKw d1 k := by
  induction d2 generalizing d1 with
  | nil => rfl
  | cons p d2 ih =>
    simp only [List.map_cons, List.nodup_cons] at hnd
    have step : dictUnion d1 (p :: d2) = dictUnion (updateKey d1 p.1 p.2) d2 := rfl
    rw [step, ih _ hnd.2]
    by_cases hk : p.1 = k
    · have h2 : getKw d2 k = none :=
        getKw_eq_none_of_not_mem d2 k (by rw [← hk]; exact hnd.1)
      rw [h2]
      simp [getKw, hk, getKw_updateKey]
    · cases hgd : getKw d2 k with
      | some v => simp [hgd, getKw, hk]
      | none => simp [hgd, getKw, hk, getKw_updateKey]

/-! ### The keyword-aware curry function

Python source (function-calling.ipynb):

  def curry_kw(n, func):
      def incomplete_factory(arity, used_args, used_kwargs):
          return lambda *args, **kwargs: (
              func(*(used_args + args), **used_kwargs, **kwargs)
              if len(used_args) + len(args) >= arity
              else incomplete_factory(arity, used_args + args,
                                      \x7b**used_kwargs, **kwargs\x7d)
          )
      return incomplete_factory(n, (), \x7b\x7d)

Note the asymmetry the claims turn on: the deferred branch merges the
two kwarg dicts with a dict display (later bindings override earlier
ones), while the invoking branch unpacks both dicts into the call of
func, which in Python raises TypeError when the same key occurs in
both. -/

/-- Closure state of the lambda built by incomplete_factory in curry_kw:
captured arity, bound positional arguments and bound keyword
arguments. -/
structure IncompleteKw (α : Type) where
  arity : Nat
  used_args : List α
  used_kwargs : List (String × α)
  deriving DecidableEq, Repr

/-- Result of one call to a curry_kw closure: the wrapped function fires,
or a new deferred closure is returned, or the call itself raises
TypeError because the same keyword was unpacked twice. -/
inductive CurryKwResult (α : Type) where
  | value : α → CurryKwResult α
  | deferred : IncompleteKw α → CurryKwResult α
  | typeError : CurryKwResult α
  deriving DecidableEq, Repr

/-- Embedding of curry_kw(n, func): the initial closure state,
incomplete_factory(n, (), \x7b\x7d). -/
def curry_kw (α : Type) (n : Nat) : IncompleteKw α :=
  ⟨n, [], []⟩

/-- Embedding of one call to the lambda returned by curry_kw's
incomplete_factory.  In the invoking branch the two keyword dicts are
unpacked into the call, so a duplicated key raises TypeError; in the
deferred branch they are merged by dict display, later bindings
winning. -/
def curryKwCall (func : List α → List (String × α) → α)
    (s : IncompleteKw α) (args : List α) (kwargs : List (String × α)) :
    CurryKwResult α :=
  if s.used_args.length + args.length ≥ s.arity then
    if dupKeys s.used_kwargs kwargs then
      .typeError
    else
      .value (func (s.used_args ++ args) (dictUnion s.used_kwargs kwargs))
  else
    .deferred ⟨s.arity, s.used_args ++ args, dictUnion s.used_kwargs kwargs⟩

/-- Example function for keyword witnesses: reads the key k from its
keyword dict. -/
def readK (args : List Nat) (kw : List (String × Nat)) : Nat :=
  (getKw kw "k").getD 0 + decEnc args

/-- COUNTEREXAMPLE to C4: bind k at a partial application, then rebind k
at the final call that reaches arity.  The call raises TypeError instead
of succeeding with the later value. -/
theorem curry_kw_final_override_counterexample :
    curryKwCall readK (curry_kw Nat 1) [] [("k", 1)] =
      .deferred ⟨1, [], [("k", 1)]⟩ ∧
    curryKwCall readK ⟨1, [], [("k", 1)]⟩ [5] [("k", 2)] = .typeError := by
  constructor <;> rfl

/-- CLAIM C4 amended: keyword arguments accumulate across partial
applications by mapping union with later bindings overriding earlier
ones for the same name; but when a binding that duplicates an
already-bound name is supplied at the final call that reaches arity, the
call raises TypeError instead of succeeding with the later value. -/
theorem curry_kw_override (α : Type)
    (func : List α → List (String × α) → α) (s : IncompleteKw α)
    (args : List α) (kwargs : List (String × α))
    (hnd : (kwargs.map Prod.fst).Nodup) :
    (s.used_args.length + args.length < s.arity →
      curryKwCall func s args kwargs =
        .deferred ⟨s.arity, s.used_args ++ args,
                   dictUnion s.used_kwargs kwargs⟩ ∧
      (∀ k v, getKw kwargs k = some v →
        getKw (dictUnion s.used_kwargs kwargs) k = some v) ∧
      (∀ k, getKw kwargs k = none →
        getKw (dictUnion s.used_kwargs kwargs) k = getKw s.used_kwargs k)) ∧
    (s.arity ≤ s.used_args.length + args.length →
      dupKeys s.used_kwargs kwargs = true →
      curryKwCall func s args kwargs = .typeError) := by
  constructor
  · intro hlt
    refine ⟨?_, ?_, ?_⟩
    · unfold curryKwCall
      rw [if_neg]
      omega
    · intro k v hv
      rw [getKw_dictUnion _ _ _ hnd, hv]
    · intro k hv
      rw [getKw_dictUnion _ _ _ hnd, hv]
  · intro hge hdup
    unfold curryKwCall
    rw [if_pos hge, if_pos hdup]

/-- Witness for C4 amended: rebinding k below arity defers with the
later value 2 stored for k; reaching arity with the duplicate raises
TypeError. -/
theorem curry_kw_override_witness :
    curryKwCall readK ⟨2, [0], [("k", 1)]⟩ [] [("k", 2)] =
      .deferred ⟨2, [0], dictUnion [("k", 1)] [("k", 2)]⟩ ∧
    getKw (dictUnion [("k", 1)] [("k", 2)]) "k" = some 2 ∧
    curryKwCall readK ⟨1, [], [("k", 1)]⟩ [5] [("k", 2)] = .typeError := by
  have h := curry_kw_override Nat readK ⟨2, [0], [("k", 1)]⟩ [] [("k", 2)]
    (by decide)
  have h2 := curry_kw_override Nat readK ⟨1, [], [("k", 1)]⟩ [5] [("k", 2)]
    (by decide)
  refine ⟨(h.1 (by decide)).1, (h.1 (by decide)).2.1 "k" 2 (by decide),
    h2.2 (by decide) (by decide)⟩

/-! ### The cython-style cy_fn wrapper

Python source (function-calling.ipynb):

  def cy_fn(int arity, impl):
      def foo(*args, **kwargs):
          cdef int n = len(args)
          if n >= arity:
              return impl(*args, **kwargs)
          else:
              return lambda *xs: impl(*(xs + args))
      return foo

The deferred lambda captures args and, when called, immediately invokes
impl on xs + args: the NEW arguments come first, the bound kwargs are
dropped, and no further currying happens. -/

/-- Result of one call to the wrapper produced by cy_fn: either impl
fires, or the lambda capturing the supplied positional arguments is
returned. -/
inductive CyFnResult (α : Type) where
  | value : α → CyFnResult α
  | deferred : List α → CyFnResult α
  deriving DecidableEq, Repr

/-- Embedding of one call to foo, the wrapper returned by
cy_fn(arity, impl). -/
def cy_fn_call (arity : Nat) (impl : List α → List (String × α) → α)
    (args : List α) (kwargs : List (String × α)) : CyFnResult α :=
  if args.length ≥ arity then
    .value (impl args kwargs)
  else
    .deferred args

/-- Embedding of a call to the deferred lambda produced by cy_fn, with
bound positional arguments bound and new arguments xs: it computes
impl(*(xs + args)), new arguments first and no keyword arguments. -/
def cy_fn_deferred_call (impl : List α → List (String × α) → α)
    (bound : List α) (xs : List α) : α :=
  impl (xs ++ bound) []

/-- Order-sensitive example function for the cy_fn counterexample. -/
def decEncKw (args : List Nat) (kw : List (String × Nat)) : Nat :=
  decEnc args + (getKw kw "k").getD 0

/-- COUNTEREXAMPLE to C2: binding 1 then supplying 2 makes the deferred
lambda compute impl(2, 1) = 21, not impl applied to the bound argument
followed by the new one (impl(1, 2) = 12); and with arity 3 the deferred
lambda still invokes impl directly on two arguments instead of deferring
again. -/
theorem cy_fn_claim_counterexample :
    cy_fn_call 2 decEncKw [1] [] = .deferred [1] ∧
    cy_fn_deferred_call decEncKw [1] [2] ≠ decEncKw ([1] ++ [2]) [] ∧
    cy_fn_deferred_call decEncKw [1] [2] = decEncKw [2, 1] [] ∧
    cy_fn_call 3 decEncKw [1] [] = .deferred [1] ∧
    cy_fn_deferred_call decEncKw [1] [2] = 21 := by
  refine ⟨rfl, ?_, rfl, rfl, rfl⟩
  decide

/-- CLAIM C2 amended: a call to the cy_fn wrapper supplying K < arity
positional arguments returns a deferred lambda capturing them; when
later called, that lambda immediately invokes impl with the newly
supplied arguments concatenated BEFORE the previously bound ones and
without any keyword arguments, never re-applying the currying rule. -/
theorem cy_fn_deferred_behavior (α : Type) (arity : Nat)
    (impl : List α → List (String × α) → α) (args xs : List α)
    (kwargs : List (String × α)) (h : args.length < arity) :
    cy_fn_call arity impl args kwargs = .deferred args ∧
    cy_fn_deferred_call impl args xs = impl (xs ++ args) [] := by
  constructor
  · unfold cy_fn_call
    rw [if_neg]
    omega
  · rfl

/-- Witness for C2 amended at arity 2 with one bound argument. -/
theorem cy_fn_deferred_behavior_witness :
    cy_fn_call 2 decEncKw [1] [] = .deferred [1] ∧
    cy_fn_deferred_call decEncKw [1] [2] = decEncKw ([2] ++ [1]) [] :=
  cy_fn_deferred_behavior Nat 2 decEncKw [1] [2] [] (by decide)

/-! ### The fixed-arity experiments curry2_with_args and cy

Python source (function-calling.ipynb):

  def curry2_with_args(impl):
      def func(*args):
          if len(args) == 2:
              return impl(*args)
          elif len(args) == 1:
              x = args[0]
              return lambda y: impl(x, y)
          else:
              raise TypeError('invalid number of args')
      return func

  cdef class cy:
      ...
      def __call__(self, *args):
          cdef int n = len(args)
          if n >= 2:
              return self.func(*args)
          elif n == 1:
              f = self.func
              x = args[0]
              return lambda y: f(x, y)
          else:
              raise TypeError('invalid number of arguments')

Both raise TypeError on a zero-argument call instead of returning a
partial application. -/

/-- Result of one call to the curry2_with_args wrapper or to a cy
instance: invoke, defer with one bound argument, or raise TypeError. -/
inductive Curry2Result (α : Type) where
  | value : α → Curry2Result α
  | deferred : α → Curry2Result α
  | typeError : Curry2Result α
  deriving DecidableEq, Repr

/-- Embedding of one call to the wrapper returned by
curry2_with_args(impl): two arguments invoke impl, one argument defers,
anything else raises TypeError. -/
def curry2_with_args_call (impl : α → α → α) (args : List α) :
    Curry2Result α :=
  match args with
  | [x, y] => .value (impl x y)
  | [x] => .deferred x
  | _ => .typeError

/-- Embedding of cy.__call__: two or more arguments invoke the stored
variadic func, one argument defers, zero arguments raise TypeError. -/
def cy_call (func : List α → α) (args : List α) : Curry2Result α :=
  match args with
  | [] => .typeError
  | [x] => .deferred x
  | x :: y :: rest => .value (func (x :: y :: rest))

/-- Example binary function for the C5 counterexample. -/
def encode2 (x y : Nat) : Nat := 10 * x + y

/-- COUNTEREXAMPLE to C5: a zero-argument call (K = 0 < N = 2) to the
curry2_with_args wrapper and to a cy instance raises TypeError instead
of returning a deferred callable. -/
theorem zero_arg_call_counterexample :
    curry2_with_args_call encode2 [] = .typeError ∧
    cy_call decEnc [] = .typeError := by
  constructor <;> rfl

/-- CLAIM C5 amended: for the curry2_with_args wrapper and the cy class
(declared arity 2), a call supplying exactly one positional argument
returns a deferred callable, but a zero-argument call raises TypeError
rather than producing a partial application. -/
theorem curry2_args_and_cy_behavior (α : Type) (impl : α → α → α)
    (func : List α → α) (x : α) :
    curry2_with_args_call impl [x] = .deferred x ∧
    cy_call func [x] = .deferred x ∧
    curry2_with_args_call impl [] = .typeError ∧
    cy_call func [] = .typeError :=
  ⟨rfl, rfl, rfl, rfl⟩

/-! ### The exception-based experiment curry2_with_exception

Python source (function-calling.ipynb):

  def curry2_with_exception(impl):
      def func(*args):
          try:
              return impl(*args)
          except TypeError as exc:
              if len(args) == 1:
                  return lambda y: impl(x, y)
              else:
                  raise
      return func

A TypeError raised by impl is caught; with exactly one supplied argument
the wrapper returns a lambda (a partial application — one that in fact
references an unbound name x, a further slip we do not need to model
because the claims never call it), otherwise the exception is
re-raised.  impl is modelled as fallible. -/

/-- Result of one call to the curry2_with_exception wrapper: the value
impl returned, the deferred lambda produced by the except branch, or a
propagated exception. -/
inductive Curry2ExcResult (α : Type) where
  | value : α → Curry2ExcResult α
  | deferred : Curry2ExcResult α
  | raised : PyErr → Curry2ExcResult α
  deriving DecidableEq, Repr

/-- Embedding of one call to the wrapper returned by
curry2_with_exception(impl): try impl; a TypeError with exactly one
supplied argument becomes a deferred lambda, any other TypeError is
re-raised, and exceptions of other classes are not caught at all. -/
def curry2_with_exception_call (impl : List α → Except PyErr α)
    (args : List α) : Curry2ExcResult α :=
  match impl args with
  | .ok v => .value v
  | .error .typeError =>
    if args.length = 1 then .deferred else .raised .typeError
  | .error e => .raised e

/-- Example fallible function that always raises TypeError, as a binary
function does when called with a single argument. -/
def alwaysTypeError : List Nat → Except PyErr Nat :=
  fun _ => .error .typeError

/-- COUNTEREXAMPLE to C6: when impl raises TypeError on a one-argument
call, the wrapper converts the failure into a partial application
instead of propagating it. -/
theorem curry2_exception_one_arg_counterexample :
    curry2_with_exception_call alwaysTypeError [7] = .deferred ∧
    curry2_with_exception_call alwaysTypeError [7] ≠ .raised .typeError := by
  constructor
  · rfl
  · decide

/-- CLAIM C6 amended: when impl raises TypeError, the wrapper propagates
the failure unchanged only when the number of supplied arguments is not
exactly one; with exactly one argument the TypeError is converted into a
partial application. -/
theorem curry2_exception_behavior (α : Type)
    (impl : List α → Except PyErr α) (args : List α)
    (h : impl args = .error .typeError) :
    curry2_with_exception_call impl args =
      if args.length = 1 then .deferred else .raised .typeError := by
  unfold curry2_with_exception_call
  rw [h]

/-- Witness for C6 amended at a two-argument call, where the TypeError
does propagate. -/
theorem curry2_exception_behavior_witness :
    curry2_with_exception_call alwaysTypeError [1, 2] =
      if ([1, 2] : List Nat).length = 1 then Curry2ExcResult.deferred
      else .raised .typeError :=
  curry2_exception_behavior Nat alwaysTypeError [1, 2] rfl

/-! ### Immutability of the curry closures

In the source of curry and curry_kw the closure bodies never rebind the
captured variables: used_args is a tuple and used_args + args allocates
a new tuple, and the deferred branch of curry_kw builds a fresh dict
with a dict display.  To make that observable we give the calls a
state-passing semantics in which each call also returns the callee's
closure state after the call; since the source contains no assignment to
the captured state, that state is the one the closure was built with. -/

/-- State-passing semantics of a call to a curry closure: the result of
the call together with the callee's closure state after the call, which
the source never mutates. -/
def curryCallSt (func : List α → α) (s : Incomplete α) (args : List α) :
    CurryResult α × Incomplete α :=
  (curryCall func s args, s)

/-- State-passing semantics of a call to a curry_kw closure. -/
def curryKwCallSt (func : List α → List (String × α) → α)
    (s : IncompleteKw α) (args : List α) (kwargs : List (String × α)) :
    CurryKwResult α × IncompleteKw α :=
  (curryKwCall func s args kwargs, s)

/-- CLAIM C7: partial applications built by curry and curry_kw are
immutable: a call leaves the callee's bound positional and keyword state
unchanged, so a later call on the same partial application — and hence
any sibling partial application derived from the same root — is
unaffected by an earlier call with different arguments. -/
theorem curry_partials_immutable (α : Type) (func : List α → α)
    (fkw : List α → List (String × α) → α) (s : Incomplete α)
    (t : IncompleteKw α) (a b : List α) (ka kb : List (String × α)) :
    (curryCallSt func s a).2 = s ∧
    curryCallSt func (curryCallSt func s a).2 b = curryCallSt func s b ∧
    (curryKwCallSt fkw t a ka).2 = t ∧
    curryKwCallSt fkw (curryKwCallSt fkw t a ka).2 b kb =
      curryKwCallSt fkw t b kb :=
  ⟨rfl, rfl, rfl, rfl⟩

/-! ### Positional-only calling convention of curry closures

The closure returned by curry's incomplete_factory has the signature
lambda *args: it declares no keyword parameters and no **kwargs
collector, so under Python calling convention any call that supplies a
keyword argument raises TypeError (unexpected keyword argument) before
the body runs.  Only curry_kw declares **kwargs. -/

/-- Embedding of a full Python call (positional and keyword arguments)
to a curry closure: the lambda *args signature rejects every keyword
argument with TypeError; otherwise the body of curryCall runs. -/
def curryCallPy (func : List α → α) (s : Incomplete α) (args : List α)
    (kwargs : List (String × α)) : Except PyErr (CurryResult α) :=
  match kwargs with
  | [] => .ok (curryCall func s args)
  | _ => .error .typeError

/-- CLAIM C10: the wrapper returned by curry and every deferred callable
it produces accept only positional arguments: a call that includes any
keyword argument raises TypeError, whatever positional arguments have
accumulated in the closure state. -/
theorem curry_rejects_keywords (α : Type) (func : List α → α)
    (s : Incomplete α) (args : List α) (kwargs : List (String × α))
    (h : kwargs ≠ []) :
    curryCallPy func s args kwargs = .error .typeError := by
  unfold curryCallPy
  match kwargs with
  | [] => exact absurd rfl h
  | p :: d => rfl

/-- Witness for C10 at a concrete call with one keyword argument and an
already partially applied closure. -/
theorem curry_rejects_keywords_witness :
    curryCallPy decEnc ⟨2, [1]⟩ [] [("k", 3)] = .error .typeError :=
  curry_rejects_keywords Nat decEnc ⟨2, [1]⟩ [] [("k", 3)] (by decide)

/-! ### The predicate-or operator of fn functions -/

/-- Modelled from the spec: the fn wrapper class and its pipe operator
are not under src/ — only their documentation is
(src/docs/extended_functions.rst: bitwise | composes predicate
functions, f | g produces the logical OR of f(x) and g(x), and g is
evaluated only if f returns a falsy value, like Python's or operator).
Predicates are modelled as state transformers over an abstract
side-effect state, so whether an operand was evaluated is observable in
the final state; truthiness of the abstract value type is a
parameter. -/
def fn_or (truthy : V → Bool) (f g : α → σ → V × σ) : α → σ → V × σ :=
  fun x s =>
    let r := f x s
    if truthy r.1 then r else g x r.2

/-- CLAIM C8: f | g evaluates g only when f's result is falsy: when f's
result is truthy the outcome (value and side effects) is that of f alone
and is the same for every right operand, so g is never invoked; when f's
result is falsy the outcome is g evaluated on the state f left. -/
theorem fn_or_short_circuit (V σ α : Type) (truthy : V → Bool)
    (f g g2 : α → σ → V × σ) (x : α) (s : σ) :
    (truthy (f x s).1 = true →
      fn_or truthy f g x s = f x s ∧
      fn_or truthy f g x s = fn_or truthy f g2 x s) ∧
    (truthy (f x s).1 = false →
      fn_or truthy f g x s = g x (f x s).2) := by
  constructor
  · intro ht
    constructor <;> simp [fn_or, ht]
  · intro hf
    simp [fn_or, hf]

/-- Truthiness of the example value type: a natural number is truthy
when non-zero, as in Python. -/
def natTruthy (v : Nat) : Bool := v != 0

/-- Example left predicate for the C8 witness: returns the truthy value
1 and increments the side-effect counter. -/
def predT (x : Nat) (s : Nat) : Nat × Nat := (1 + 0 * x, s + 1)

/-- Example right predicate for the C8 witness: adds 100 to the
side-effect counter, so its evaluation would be visible. -/
def predEffect (x : Nat) (s : Nat) : Nat × Nat := (0 * x, s + 100)

/-- Witness for C8: with a truthy left operand the composed predicate
returns the left result with only the left side effect, untouched by the
right operand. -/
theorem fn_or_short_circuit_witness :
    natTruthy (predT 5 0).1 = true ∧
    fn_or natTruthy predT predEffect 5 0 = predT 5 0 :=
  ⟨by decide,
   ((fn_or_short_circuit Nat Nat Nat natTruthy predT predEffect predEffect
      5 0).1 (by decide)).1⟩

/-! ### Function composition -/

/-- Modelled from the spec: the sk.compose implementation is not under
src/ — only its documentation is (src/docs tutorial: data flows from
right to left, sk.compose(op.add(2), op.mul(4)) applied to 10 gives 42,
and compose of a list is pipeline of the reversed list).  The binary
composition underlying it: compose f g applied to x computes
f (g x). -/
def compose (f : β → γ) (g : α → β) : α → γ :=
  fun x => f (g x)

/-- CLAIM C9: composition is associative up to observational equality:
for all functions and every argument, compose (compose f g) h and
compose f (compose g h) agree. -/
theorem compose_assoc (α β γ δ : Type) (f : γ → δ) (g : β → γ)
    (h : α → β) (x : α) :
    compose (compose f g) h x = compose f (compose g h) x :=
  rfl

end Sidekick
